/-
  Verification development for the fashion-agent dashboard's LoRA-training
  job lifecycle.

  Shallow embedding of:
  - `src/agents/lora-trainer.ts` (`startLoRATraining`, `checkTrainingStatus`,
    `waitForTrainingCompletion`),
  - `src/app/api/models/poll-training/route.ts` (`POST`, the status poller),
  - the `POST /api/models/train-lora` route (job creation and start),
  - the client polling loop `pollTrainingStatus` in
    `src/components/model/ModelLoRATrain.tsx`.

  External effects are made explicit: the Replicate API reply (or the
  exception thrown while calling it) is a parameter, the database is a
  record holding the single job row and the single ai_models row touched by
  these code paths, and wall-clock timestamps are string parameters.
  JavaScript truthiness of the `x || y` fallbacks is modelled exactly
  (empty strings are falsy, arrays and objects are truthy, absent values
  are falsy).
-/
import Mathlib

namespace FashionAgent

/-- Internal job status enum stored in `lora_training_jobs.status`
(values written by the routes: pending, uploading, training, completed,
failed; 'cancelled' is recognised by the terminal check in the poll route). -/
inductive JobStatus where
  | pending
  | uploading
  | training
  | completed
  | failed
  | cancelled
deriving DecidableEq, Repr

/-- Replicate's training status vocabulary
(`LoRATrainingStatus.status` in lora-trainer.ts). -/
inductive RepStatus where
  | starting
  | processing
  | succeeded
  | failed
  | canceled
deriving DecidableEq, Repr

/-- The `output` field of a Replicate training: either a plain string
(URL) or an object with optional `weights`, `version` and `images` keys.
`typeof output === 'string'` distinguishes the two shapes. -/
inductive RepOutput where
  | strOut (s : String)
  | objOut (weights version : Option String) (images : Option (List String))
deriving DecidableEq, Repr

/-- JavaScript truthiness of an optional string: `undefined`/`null` and
`""` are falsy. -/
def jsTruthyStr : Option String → Bool
  | none => false
  | some s => s ≠ ""

/-- JavaScript `a || b` for an optional string with a string fallback. -/
def jsStrOr (a : Option String) (b : String) : String :=
  if jsTruthyStr a then a.getD b else b

/-- JavaScript `a || b` for two optional strings (used by the poll route response:
`dbUpdate.lora_weights_url || trainingJob.lora_weights_url`). -/
def jsStrOrOpt (a b : Option String) : Option String :=
  if jsTruthyStr a then a else b

/-- JavaScript `a || b` where `a` is an optional array: arrays (even empty ones) are
truthy in JavaScript, so only an absent value falls back. -/
def jsListOr (a b : Option (List String)) : Option (List String) :=
  match a with
  | some l => some l
  | none => b

/-- JavaScript `a || b` for an optional number with a number fallback: `0` is falsy. -/
def jsNatOr (a : Option Nat) (b : Nat) : Nat :=
  match a with
  | some n => if n = 0 then b else n
  | none => b

/-- JavaScript truthiness of the whole `output` value:
`if (replicateStatus.output)` — objects are truthy, `""` is falsy. -/
def jsTruthyOutput : Option RepOutput → Bool
  | none => false
  | some (.strOut s) => s ≠ ""
  | some (.objOut _ _ _) => true

/-- One row of `lora_training_jobs`. -/
structure TrainingJob where
  id : String
  model_id : String
  training_images : List String
  trigger_word : String
  steps : Nat
  learning_rate : ℚ
  batch_size : Nat
  resolution : Nat
  status : JobStatus
  progress : Nat
  replicate_training_id : Option String
  lora_weights_url : Option String
  sample_images : Option (List String)
  error_message : Option String
  started_at : Option String
  completed_at : Option String
deriving DecidableEq, Repr

/-- One row of `ai_models` (the fields the LoRA code paths read or write). -/
structure AiModel where
  id : String
  model_code : String
  name : String
  gender : String
  base_image_url : Option String
  thumbnail_url : Option String
  has_lora_training : Bool
  is_active : Bool
  lora_training_job_id : Option String
  lora_trigger_word : Option String
  lora_weights_url : Option String
deriving DecidableEq, Repr

/-- The slice of the database the poll route touches: the job row fetched
by `training_job_id` and the `ai_models` row it points to, plus write
counters (each supabase `update` call increments the counter of its
table). -/
structure Db where
  job : TrainingJob
  model : AiModel
  jobWrites : Nat
  modelWrites : Nat
deriving DecidableEq, Repr

/-- The reply of `replicate.trainings.get(trainingId)`: either the
training record, or the exception message thrown by the call (network
failure etc.). -/
inductive ReplicateCall where
  | ok (status : RepStatus) (logs : Option String)
       (output : Option RepOutput) (error : Option String)
  | err (msg : String)
deriving DecidableEq, Repr

/-- Structure `LoRATrainingStatus` as returned by `checkTrainingStatus`. -/
structure LoRATrainingStatus where
  status : RepStatus
  logs : Option String := none
  output : Option RepOutput := none
  error : Option String := none
deriving DecidableEq, Repr

/-- Embedding of `checkTrainingStatus` (lora-trainer.ts lines 135-154): on a successful
API reply it forwards status/logs/output/error (`training.logs ||
undefined` drops an empty log string, `training.error ? String(...) :
undefined` drops a falsy error); on a thrown exception it returns
status `'failed'` with the exception message as `error`. -/
def checkTrainingStatus : ReplicateCall → LoRATrainingStatus
  | .ok status logs output error =>
      { status := status
        logs := if jsTruthyStr logs then logs else none
        output := output
        error := if jsTruthyStr error then error else none }
  | .err msg => { status := .failed, error := some msg }

/-- A job status is terminal when the poll route's early-return check
(route.ts line 43) matches it: completed, failed or cancelled. -/
def isTerminal (s : JobStatus) : Bool :=
  s = .completed || s = .failed || s = .cancelled

/-- The partial update object `dbUpdate` built by the poll route: a key
that is absent (or present with value `undefined`, which JSON
serialisation drops) leaves the column unchanged. -/
structure DbUpdate where
  status : Option JobStatus := none
  progress : Option Nat := none
  lora_weights_url : Option String := none
  sample_images : Option (List String) := none
  error_message : Option String := none
  completed_at : Option String := none
deriving DecidableEq, Repr

/-- Apply a partial update to the job row (supabase `update`: only the
keys present in the serialised object are written). -/
def applyUpdate (j : TrainingJob) (u : DbUpdate) : TrainingJob :=
  { j with
    status := u.status.getD j.status
    progress := u.progress.getD j.progress
    lora_weights_url := match u.lora_weights_url with
      | some v => some v
      | none => j.lora_weights_url
    sample_images := match u.sample_images with
      | some v => some v
      | none => j.sample_images
    error_message := match u.error_message with
      | some v => some v
      | none => j.error_message
    completed_at := match u.completed_at with
      | some v => some v
      | none => j.completed_at }

/-- The JSON `data` payload returned by the poll route (absent keys are
`none`). -/
structure PollData where
  status : JobStatus
  progress : Nat
  lora_weights_url : Option String := none
  sample_images : Option (List String) := none
  error_message : Option String := none
  message : Option String := none
deriving DecidableEq, Repr

/-- Extraction of the LoRA weights URL and sample images from a
`succeeded` training's output (route.ts lines 92-107; the identical
logic is inlined again in `waitForTrainingCompletion`,
lora-trainer.ts lines 182-198). -/
def extractLoraOutput (output : Option RepOutput) :
    Option String × List String :=
  if jsTruthyOutput output then
    match output with
    | some (.strOut s) => (some s, [])
    | some (.objOut weights version images) =>
        let url : Option String :=
          if jsTruthyStr weights then weights
          else if jsTruthyStr version then
            some ("replicate:" ++ version.getD "")
          else none
        (url, images.getD [])
    | none => (none, [])
  else (none, [])

/-- The response payload built at route.ts lines 150-162 from `dbUpdate`
and the previously-fetched job row, with JavaScript `||` fallbacks
(`dbUpdate.progress !== undefined` is an explicit undefined check). -/
def mkPollPayload (u : DbUpdate) (j : TrainingJob) : PollData :=
  { status := u.status.getD j.status
    progress := u.progress.getD j.progress
    lora_weights_url := jsStrOrOpt u.lora_weights_url j.lora_weights_url
    sample_images := jsListOr u.sample_images j.sample_images
    error_message := jsStrOrOpt u.error_message j.error_message }

/-- Embedding of `POST /api/models/poll-training` (route.ts lines 42-162), for a job
row that was found. `call` is the outcome of the Replicate status call
the route would make; `now` is the wall-clock timestamp string used for
`completed_at`. Returns the JSON `data` payload and the updated
database slice. -/
def pollTraining (db : Db) (call : ReplicateCall) (now : String) :
    PollData × Db :=
  let j := db.job
  if isTerminal j.status then
    -- lines 43-57: already terminal, return current status, no write
    ({ status := j.status, progress := j.progress
       lora_weights_url := j.lora_weights_url
       sample_images := j.sample_images
       error_message := j.error_message }, db)
  else
    match j.replicate_training_id with
    | none =>
        -- lines 60-72: not yet started on Replicate, no write
        ({ status := j.status, progress := j.progress
           message := some "Training not yet started on Replicate" }, db)
    | some _ =>
        let rep := checkTrainingStatus call
        match rep.status with
        | .processing =>
            -- lines 83-89
            let progress := min (max (j.progress + 10) 30) 90
            let u : DbUpdate := { status := some .training, progress := some progress }
            (mkPollPayload u j,
             { db with job := applyUpdate j u, jobWrites := db.jobWrites + 1 })
        | .succeeded =>
            -- lines 90-129
            let (loraWeightsUrl, sampleImages) := extractLoraOutput rep.output
            let u : DbUpdate :=
              { status := some .completed, progress := some 100
                lora_weights_url := loraWeightsUrl
                sample_images := some sampleImages
                completed_at := some now }
            let model' : AiModel :=
              { db.model with
                has_lora_training := true
                lora_training_job_id := some j.id
                lora_trigger_word := some j.trigger_word
                lora_weights_url := match loraWeightsUrl with
                  | some v => some v
                  | none => db.model.lora_weights_url
                is_active := true }
            (mkPollPayload u j,
             { job := applyUpdate j u, model := model'
               jobWrites := db.jobWrites + 1
               modelWrites := db.modelWrites + 1 })
        | .failed =>
            -- lines 131-140
            let u : DbUpdate :=
              { status := some .failed, progress := some 0
                error_message := some (jsStrOr rep.error "Training failed") }
            (mkPollPayload u j,
             { db with job := applyUpdate j u, jobWrites := db.jobWrites + 1 })
        | .canceled =>
            -- lines 131-140 (same branch as failed)
            let u : DbUpdate :=
              { status := some .failed, progress := some 0
                error_message := some (jsStrOr rep.error "Training canceled") }
            (mkPollPayload u j,
             { db with job := applyUpdate j u, jobWrites := db.jobWrites + 1 })
        | .starting =>
            -- no branch matches: dbUpdate stays {}, no write (line 143)
            (mkPollPayload {} j, db)

/-- JavaScript `a || b` for an optional rational with a rational fallback
(`body.learning_rate || 0.0004`: `0` is falsy). -/
def jsRatOr (a : Option ℚ) (b : ℚ) : ℚ :=
  match a with
  | some q => if q = 0 then b else q
  | none => b

/-- Left-pad a decimal string with zeros (`padStart(len, '0')`). -/
def padZeros (len : Nat) (s : String) : String :=
  String.mk (List.replicate (len - s.length) '0') ++ s

/-- Embedding of `generateTriggerWord` (lora-trainer.ts lines 255-268): uppercase the
model name, strip everything outside A-Z0-9, keep the first 10
characters, and append a zero-padded 3-digit suffix drawn from
`Math.floor(Math.random() * 1000)` (here the random draw `rand` is a
parameter). -/
def generateTriggerWord (modelName : String) (rand : Nat) : String :=
  let sanitized := String.mk
    ((modelName.toUpper.toList.filter fun c =>
        (65 ≤ c.toNat && c.toNat ≤ 90) || (48 ≤ c.toNat && c.toNat ≤ 57)).take 10)
  sanitized ++ padZeros 3 (toString (rand % 1000))

/-- Structure `LoRATrainingInput` (lora-trainer.ts). -/
structure LoRATrainingInput where
  training_images : List String
  trigger_word : String
  steps : Option Nat := none
  learning_rate : Option ℚ := none
  rank : Option Nat := none
deriving DecidableEq, Repr

/-- Structure `LoRATrainingOutput` (lora-trainer.ts). -/
structure LoRATrainingOutput where
  success : Bool
  replicate_training_id : Option String := none
  replicate_version_id : Option String := none
  lora_weights_url : Option String := none
  sample_images : Option (List String) := none
  training_duration_seconds : Option Nat := none
  estimated_cost_usd : Option ℚ := none
  error : Option String := none
deriving DecidableEq, Repr

/-- The outcome of `replicate.trainings.create(...)`: the accepted
training's id, or the exception message thrown by the call. -/
inductive ReplicateCreate where
  | ok (trainingId : String)
  | err (msg : String)
deriving DecidableEq, Repr

/-- Embedding of `startLoRATraining` (lora-trainer.ts lines 61-130): rejects an image
count outside 8..20 by throwing (caught below, returning
`success: false` with the thrown message); otherwise submits the
training and returns its id, or the exception message if the create
call throws. `duration` stands for the elapsed seconds measured via
`Date.now()`. -/
def startLoRATraining (input : LoRATrainingInput)
    (remote : ReplicateCreate) (duration : Nat) : LoRATrainingOutput :=
  if input.training_images.length < 8 ∨ 20 < input.training_images.length then
    { success := false
      training_duration_seconds := some duration
      error := some ("Training requires 8-20 images, got "
        ++ toString input.training_images.length) }
  else
    match remote with
    | .ok tid =>
        { success := true
          replicate_training_id := some tid
          training_duration_seconds := some duration
          estimated_cost_usd := some (185 / 100 : ℚ) }
    | .err msg =>
        { success := false
          training_duration_seconds := some duration
          error := some msg }

/-- Request body of `POST /api/models/train-lora`
(`StartLoRATrainingRequest`). -/
structure TrainBody where
  model_name : Option String := none
  gender : Option String := none
  training_images : Option (List String) := none
  trigger_word : Option String := none
  model_id : Option String := none
  steps : Option Nat := none
  learning_rate : Option ℚ := none
deriving DecidableEq, Repr

/-- The validation at train-lora route line 31:
`!body.model_name || !body.gender || !body.training_images ||
body.training_images.length < 8` (an empty string name/gender is falsy;
a present array, even empty, is truthy). -/
def trainBodyInvalid (b : TrainBody) : Bool :=
  !jsTruthyStr b.model_name || !jsTruthyStr b.gender ||
  b.training_images.isNone || decide ((b.training_images.getD []).length < 8)

/-- The database slice touched by the train-lora route: the `ai_models`
row it creates (when no `model_id` was supplied), the successive states
of the `lora_training_jobs` row it creates and updates, write counters
(inserts included), and whether the Replicate create endpoint was
called. -/
structure TrainDb where
  model : Option AiModel := none
  jobTrajectory : List TrainingJob := []
  modelWrites : Nat := 0
  jobWrites : Nat := 0
  remoteCalled : Bool := false
deriving DecidableEq, Repr

/-- The identifiers, random draws and timestamps the train-lora route
obtains from its environment. -/
structure FreshIds where
  modelId : String
  jobId : String
  randCode : Nat
  randTrigger : Nat
  startDuration : Nat
  now : String
deriving DecidableEq, Repr

/-- Embedding of `POST /api/models/train-lora` (the route's happy and validation
paths; database inserts are assumed to succeed). Returns the HTTP
status code and the database slice after the request. Mirrors the
source order: validate, resolve trigger word, create (or reference) the
model row, insert the job as `pending`/0, update to `uploading`/10,
call `startLoRATraining`, then update to `failed` (progress 0, error
message) or to `training` (progress 20, replicate id, `started_at`). -/
def trainLora (body : TrainBody) (fresh : FreshIds)
    (remote : ReplicateCreate) : Nat × TrainDb :=
  if trainBodyInvalid body then (400, {})
  else if 20 < (body.training_images.getD []).length then (400, {})
  else
    let images := body.training_images.getD []
    let triggerWord :=
      if jsTruthyStr body.trigger_word then body.trigger_word.getD ""
      else generateTriggerWord (body.model_name.getD "") fresh.randTrigger
    let createdModel : Option AiModel :=
      if jsTruthyStr body.model_id then none
      else
        let pfx := if body.gender = some "male" then "M"
                   else if body.gender = some "female" then "F" else "N"
        some
          { id := fresh.modelId
            model_code := pfx ++ padZeros 2 (toString (fresh.randCode % 100))
            name := body.model_name.getD ""
            gender := body.gender.getD ""
            base_image_url := images.head?
            thumbnail_url := images.head?
            has_lora_training := false
            is_active := false
            lora_training_job_id := none
            lora_trigger_word := none
            lora_weights_url := none }
    let modelId :=
      if jsTruthyStr body.model_id then body.model_id.getD "" else fresh.modelId
    let modelWrites : Nat := if jsTruthyStr body.model_id then 0 else 1
    let job0 : TrainingJob :=
      { id := fresh.jobId
        model_id := modelId
        training_images := images
        trigger_word := triggerWord
        steps := jsNatOr body.steps 1000
        learning_rate := jsRatOr body.learning_rate (1 / 2500 : ℚ)
        batch_size := 1
        resolution := 512
        status := .pending
        progress := 0
        replicate_training_id := none
        lora_weights_url := none
        sample_images := none
        error_message := none
        started_at := none
        completed_at := none }
    let job1 := { job0 with status := JobStatus.uploading, progress := 10 }
    let trainingInput : LoRATrainingInput :=
      { training_images := images
        trigger_word := triggerWord
        steps := some (jsNatOr body.steps 1000)
        learning_rate := some (jsRatOr body.learning_rate (1 / 2500 : ℚ)) }
    let result := startLoRATraining trainingInput remote fresh.startDuration
    if !result.success || result.replicate_training_id.isNone then
      let job2 := { job1 with
        status := JobStatus.failed
        progress := 0
        error_message := match result.error with
          | some e => some e
          | none => job1.error_message }
      (500, { model := createdModel, jobTrajectory := [job0, job1, job2]
              modelWrites := modelWrites, jobWrites := 3, remoteCalled := true })
    else
      let job2 := { job1 with
        status := JobStatus.training
        replicate_training_id := result.replicate_training_id
        progress := 20
        started_at := some fresh.now }
      (200, { model := createdModel, jobTrajectory := [job0, job1, job2]
              modelWrites := modelWrites, jobWrites := 3, remoteCalled := true })

/-- Constant `maxWaitTime` in `waitForTrainingCompletion`: 30 minutes in
milliseconds. -/
def maxWaitTime : Nat := 30 * 60 * 1000

/-- Constant `pollInterval` in `waitForTrainingCompletion`: 30 seconds in
milliseconds. -/
def pollIntervalMs : Nat := 30 * 1000

/-- The output returned when `waitForTrainingCompletion` exhausts its
wall-clock budget (lora-trainer.ts lines 230-235). -/
def timeoutOutput (trainingId : String) : LoRATrainingOutput :=
  { success := false
    replicate_training_id := some trainingId
    error := some "Training timeout after 30 minutes" }

/-- The loop of `waitForTrainingCompletion` (lora-trainer.ts lines
169-227). `polls k` is what `checkTrainingStatus` returns on the
k-th iteration; the elapsed wall-clock time at the k-th loop test is
`pollIntervalMs * k` (one 30-second sleep per non-terminal
iteration). -/
def waitLoop (polls : Nat → LoRATrainingStatus) (trainingId : String)
    (k : Nat) : LoRATrainingOutput :=
  if h : pollIntervalMs * k < maxWaitTime then
    let status := polls k
    match status.status with
    | .succeeded =>
        let (url, samples) := extractLoraOutput status.output
        { success := true
          replicate_training_id := some trainingId
          lora_weights_url := url
          sample_images := some samples
          training_duration_seconds := some (pollIntervalMs * k / 1000)
          estimated_cost_usd := some (185 / 100 : ℚ) }
    | .failed =>
        { success := false
          replicate_training_id := some trainingId
          training_duration_seconds := some (pollIntervalMs * k / 1000)
          error := some (jsStrOr status.error "Training failed") }
    | .canceled =>
        { success := false
          replicate_training_id := some trainingId
          training_duration_seconds := some (pollIntervalMs * k / 1000)
          error := some (jsStrOr status.error "Training canceled") }
    | _ => waitLoop polls trainingId (k + 1)
  else timeoutOutput trainingId
termination_by maxWaitTime / pollIntervalMs - k
decreasing_by
  simp only [pollIntervalMs, maxWaitTime] at h ⊢
  omega

/-- Embedding of `waitForTrainingCompletion` (lora-trainer.ts lines 159-236). -/
def waitForTrainingCompletion (polls : Nat → LoRATrainingStatus)
    (trainingId : String) : LoRATrainingOutput :=
  waitLoop polls trainingId 0

/-- One outcome of a status fetch against the poll endpoint observed by the
client polling loop in ModelLoRATrain.tsx: the fetch threw (caught,
loop continues), the HTTP status was not ok, or a parsed
`{success, data}` body. -/
inductive FetchResult where
  | netErr
  | httpErr
  | ok (success : Bool) (data : Option PollData)
deriving DecidableEq, Repr

/-- Whether one fetch outcome makes the client loop set `completed`
(ModelLoRATrain.tsx lines 174-192): it needs `statusRes.ok`,
`statusData.success`, a `data` object, and a status of `completed`,
`failed` or `cancelled`. -/
def clientSeesTerminal : FetchResult → Bool
  | .ok true (some d) =>
      d.status = .completed || d.status = .failed || d.status = .cancelled
  | _ => false

/-- The client polling loop `pollTrainingStatus` (ModelLoRATrain.tsx
lines 161-199): `while (!completed)` — sleep 30 s, fetch the poll
endpoint, and set `completed` only on a terminal status. This counts
how many polls the loop performs while consuming the given sequence of
fetch outcomes (stopping early at the first outcome that sets
`completed`; the loop itself has no wall-clock budget). -/
def clientPollCount : List FetchResult → Nat
  | [] => 0
  | r :: rs => 1 + (if clientSeesTerminal r then 0 else clientPollCount rs)

/-- Ordering of the internal statuses along the lifecycle path
`pending → uploading → training → {completed, failed, cancelled}`
(the three terminal statuses share the final rank). -/
def statusRank : JobStatus → Nat
  | .pending => 0
  | .uploading => 1
  | .training => 2
  | .completed => 3
  | .failed => 3
  | .cancelled => 3




/-- Fetch outcome the client loop sees while the job is still training:
a successful HTTP response whose payload reports the non-terminal status
the poll endpoint writes during processing. -/
def processingFetch : FetchResult :=
  .ok true (some { status := .training, progress := 40 })

/-- Constant provider behaviour: every status poll reports processing. -/
def constProcessing : Nat → LoRATrainingStatus :=
  fun _ => { status := .processing }

/-- Placeholder job row used only as the default of `Option.getD` when
destructuring a concrete trajectory whose shape is proved exactly. -/
def defaultJob : TrainingJob :=
  { id := "", model_id := "", training_images := [], trigger_word := "",
    steps := 0, learning_rate := 0, batch_size := 0, resolution := 0,
    status := .pending, progress := 0, replicate_training_id := none,
    lora_weights_url := none, sample_images := none, error_message := none,
    started_at := none, completed_at := none }

/-- Placeholder model row used only as the default of `Option.getD` when
destructuring a concrete result whose shape is proved exactly. -/
def defaultModel : AiModel :=
  { id := "", model_code := "", name := "", gender := "",
    base_image_url := none, thumbnail_url := none,
    has_lora_training := false, is_active := false,
    lora_training_job_id := none, lora_trigger_word := none,
    lora_weights_url := none }

/-- Eight training image URLs. -/
def imgs8 : List String := ["u1", "u2", "u3", "u4", "u5", "u6", "u7", "u8"]

/-- A valid train-lora request body: 8 images and a trigger word. -/
def body0 : TrainBody :=
  { model_name := some "Sarah", gender := some "female",
    training_images := some imgs8, trigger_word := some "TOK" }

/-- Concrete environment data for one train-lora request. -/
def fresh0 : FreshIds :=
  { modelId := "m1", jobId := "j1", randCode := 7, randTrigger := 5,
    startDuration := 3, now := "t0" }

/-- Provider reply: training still processing. -/
def procCall : ReplicateCall := .ok .processing none none none

/-- Provider reply: training succeeded with a weights URL in the output
object. -/
def succCall : ReplicateCall :=
  .ok .succeeded none (some (.objOut (some "https://x/y.safetensors") none none)) none

/-- Provider reply: training succeeded but with no output at all. -/
def succEmptyCall : ReplicateCall := .ok .succeeded none none none

/-- Provider reply: training failed with error message out of memory. -/
def oomCall : ReplicateCall := .ok .failed none none (some "out of memory")

/-- The database slice after the train-lora request of `body0` succeeds:
the job row is the last state of its trajectory and the created model
row accompanies it. -/
def scenarioStart : Db :=
  let r := (trainLora body0 fresh0 (.ok "rt1")).2
  { job := r.jobTrajectory.getLast?.getD defaultJob
    model := r.model.getD defaultModel
    jobWrites := r.jobWrites
    modelWrites := r.modelWrites }

/-- State after the first processing poll. -/
def scenarioPoll1 : Db := (pollTraining scenarioStart procCall "t1").2

/-- State after the second processing poll. -/
def scenarioPoll2 : Db := (pollTraining scenarioPoll1 procCall "t2").2

/-- State after the third processing poll. -/
def scenarioPoll3 : Db := (pollTraining scenarioPoll2 procCall "t3").2

/-- State after the fourth poll, in which the provider reports success
with the weights URL. -/
def scenarioFinal : Db := (pollTraining scenarioPoll3 succCall "t4").2

/-- A job row in internal status training with a Replicate handle. -/
def jobRun : TrainingJob :=
  { id := "j1", model_id := "m1", training_images := imgs8,
    trigger_word := "TOK", steps := 1000, learning_rate := 1 / 2500,
    batch_size := 1, resolution := 512, status := .training, progress := 20,
    replicate_training_id := some "rt1", lora_weights_url := none,
    sample_images := none, error_message := none, started_at := some "t0",
    completed_at := none }

/-- The model row `jobRun` points to, before any completion update. -/
def modelRun : AiModel :=
  { id := "m1", model_code := "F07", name := "Sarah", gender := "female",
    base_image_url := some "u1", thumbnail_url := some "u1",
    has_lora_training := false, is_active := false,
    lora_training_job_id := none, lora_trigger_word := none,
    lora_weights_url := none }

/-- A database slice holding a running training job. -/
def dbRun : Db :=
  { job := jobRun, model := modelRun, jobWrites := 0, modelWrites := 0 }

/-- A database slice holding an already-completed job. -/
def dbDone : Db :=
  { job := { jobRun with
      status := JobStatus.completed, progress := 100,
      lora_weights_url := some "https://x/y.safetensors",
      sample_images := some [], completed_at := some "t4" }
    model := modelRun, jobWrites := 0, modelWrites := 0 }

/-- A database slice holding a cancelled job. -/
def dbCancelled : Db :=
  { job := { jobRun with status := JobStatus.cancelled }
    model := modelRun, jobWrites := 0, modelWrites := 0 }

/-- Payload returned for an already-terminal job (route.ts lines 44-56). -/
def terminalPayload (j : TrainingJob) : PollData :=
  { status := j.status, progress := j.progress
    lora_weights_url := j.lora_weights_url
    sample_images := j.sample_images
    error_message := j.error_message }

theorem pollTraining_terminal (db : Db) (call : ReplicateCall) (now : String)
    (h : isTerminal db.job.status = true) :
    pollTraining db call now = (terminalPayload db.job, db) := by
  unfold pollTraining terminalPayload
  simp [h]

theorem pollTraining_rank (db : Db) (call : ReplicateCall) (now : String) :
    statusRank db.job.status ≤ statusRank (pollTraining db call now).2.job.status := by
  unfold pollTraining
  by_cases h : isTerminal db.job.status = true
  · simp [h]
  · have hnt : db.job.status = .pending ∨ db.job.status = .uploading ∨
        db.job.status = .training := by
      cases hs : db.job.status <;> simp_all [isTerminal]
    simp only [h, Bool.false_eq_true, if_false]
    cases hr : db.job.replicate_training_id with
    | none => simp
    | some r =>
      cases hst : (checkTrainingStatus call).status <;>
        simp [hst, applyUpdate] <;>
        rcases hnt with h1 | h1 | h1 <;> simp [h1, statusRank]


theorem poll_no_cancel (db : Db) (call : ReplicateCall) (now : String)
    (h : (pollTraining db call now).2.job.status = .cancelled) :
    db.job.status = .cancelled := by
  by_cases ht : isTerminal db.job.status = true
  · rw [pollTraining_terminal db call now ht] at h; exact h
  · unfold pollTraining at h
    simp only [ht, Bool.false_eq_true, if_false] at h
    cases hr : db.job.replicate_training_id with
    | none => simp [hr] at h; exact h
    | some r =>
      cases hst : (checkTrainingStatus call).status <;>
        simp [hr, hst, applyUpdate] at h <;> try exact h

theorem poll_progress (db : Db) (call : ReplicateCall) (now : String)
    (hp : db.job.progress ≤ 90)
    (hf : (pollTraining db call now).2.job.status ≠ .failed) :
    db.job.progress ≤ (pollTraining db call now).2.job.progress := by
  by_cases ht : isTerminal db.job.status = true
  · rw [pollTraining_terminal db call now ht]
  · unfold pollTraining
    unfold pollTraining at hf
    simp only [ht, Bool.false_eq_true, if_false] at hf ⊢
    cases hr : db.job.replicate_training_id with
    | none => simp
    | some r =>
      cases hst : (checkTrainingStatus call).status <;>
        simp [hr, hst, applyUpdate] at hf ⊢ <;> omega

theorem poll_failed_resets (db : Db) (r : String) (call : ReplicateCall) (now : String)
    (ht : isTerminal db.job.status = false)
    (hr : db.job.replicate_training_id = some r)
    (hst : (checkTrainingStatus call).status = .failed ∨
           (checkTrainingStatus call).status = .canceled) :
    (pollTraining db call now).2.job.progress = 0 := by
  unfold pollTraining
  simp only [ht, Bool.false_eq_true, if_false, hr]
  rcases hst with h | h <;> simp [h, applyUpdate]

theorem poll_url_only_completed (db : Db) (call : ReplicateCall) (now : String)
    (h : (pollTraining db call now).2.job.lora_weights_url ≠ db.job.lora_weights_url) :
    (pollTraining db call now).2.job.status = .completed := by
  by_cases ht : isTerminal db.job.status = true
  · rw [pollTraining_terminal db call now ht] at h ⊢; simp at h
  · unfold pollTraining at h ⊢
    simp only [ht, Bool.false_eq_true, if_false] at h ⊢
    cases hr : db.job.replicate_training_id with
    | none => simp [hr] at h
    | some r =>
      cases hst : (checkTrainingStatus call).status <;>
        simp [hr, hst, applyUpdate] at h ⊢

theorem poll_succeeded_url (db : Db) (r : String) (call : ReplicateCall) (now : String) (u : String)
    (ht : isTerminal db.job.status = false)
    (hr : db.job.replicate_training_id = some r)
    (hst : (checkTrainingStatus call).status = .succeeded)
    (hu : (extractLoraOutput (checkTrainingStatus call).output).1 = some u) :
    (pollTraining db call now).2.job.status = .completed ∧
    (pollTraining db call now).2.job.lora_weights_url = some u ∧
    (pollTraining db call now).2.model.has_lora_training = true ∧
    (pollTraining db call now).2.model.is_active = true ∧
    (pollTraining db call now).2.modelWrites = db.modelWrites + 1 := by
  unfold pollTraining
  simp [ht, hr, hst, applyUpdate, hu]


theorem poll_err_recorded (db : Db) (r msg : String) (now : String)
    (ht : isTerminal db.job.status = false)
    (hr : db.job.replicate_training_id = some r) :
    checkTrainingStatus (.err msg) = { status := .failed, error := some msg } ∧
    (pollTraining db (.err msg) now).2.job.status = .failed ∧
    (pollTraining db (.err msg) now).2.job.error_message =
      some (jsStrOr (some msg) "Training failed") ∧
    (pollTraining db (.err msg) now).2.jobWrites = db.jobWrites + 1 := by
  refine ⟨rfl, ?_, ?_, ?_⟩ <;>
    · unfold pollTraining
      simp [ht, hr, checkTrainingStatus, applyUpdate]

theorem poll_canceled_failed (db : Db) (r : String) (logs : Option String)
    (output : Option RepOutput) (err : Option String) (now : String)
    (ht : isTerminal db.job.status = false)
    (hr : db.job.replicate_training_id = some r) :
    (pollTraining db (.ok .canceled logs output err) now).2.job.status = .failed ∧
    (pollTraining db (.ok .canceled logs output err) now).2.job.error_message =
      some (jsStrOr err "Training canceled") := by
  constructor <;>
    · unfold pollTraining
      simp only [ht, Bool.false_eq_true, if_false, hr, checkTrainingStatus]
      by_cases he : jsTruthyStr err = true <;>
        simp [he, applyUpdate, jsStrOr] <;> simp_all [jsTruthyStr, jsStrOr]

theorem waitLoop_timeout (polls : Nat → LoRATrainingStatus) (tid : String)
    (h : ∀ k, (polls k).status = .starting ∨ (polls k).status = .processing) :
    ∀ k, waitLoop polls tid k = timeoutOutput tid := by
  have main : ∀ d k, maxWaitTime / pollIntervalMs - k ≤ d →
      waitLoop polls tid k = timeoutOutput tid := by
    intro d
    induction d with
    | zero =>
      intro k hk
      have hk60 : ¬ pollIntervalMs * k < maxWaitTime := by
        simp only [maxWaitTime, pollIntervalMs] at hk ⊢; omega
      unfold waitLoop
      simp [hk60]
    | succ d ih =>
      intro k hk
      unfold waitLoop
      by_cases hk60 : pollIntervalMs * k < maxWaitTime
      · simp only [hk60, dif_pos]
        rcases h k with hs | hs <;>
          · simp only [hs]
            exact ih (k + 1) (by simp only [maxWaitTime, pollIntervalMs] at hk ⊢; omega)
      · simp [hk60]
  intro k
  exact main (maxWaitTime / pollIntervalMs) k (Nat.sub_le _ _)

theorem waitForTrainingCompletion_timeout (polls : Nat → LoRATrainingStatus) (tid : String)
    (h : ∀ k, (polls k).status = .starting ∨ (polls k).status = .processing) :
    waitForTrainingCompletion polls tid = timeoutOutput tid :=
  waitLoop_timeout polls tid h 0

theorem clientPollCount_replicate (n : Nat) :
    clientPollCount (List.replicate n processingFetch) = n := by
  induction n with
  | zero => rfl
  | succ n ih =>
    rw [List.replicate_succ]
    simp only [clientPollCount, ih]
    rw [show clientSeesTerminal processingFetch = false from rfl]
    simp [Nat.add_comm]

theorem trainLora_chain_rank (body : TrainBody) (fresh : FreshIds)
    (remote : ReplicateCreate) :
    List.Chain' (fun a b : TrainingJob => statusRank a.status ≤ statusRank b.status)
      (trainLora body fresh remote).2.jobTrajectory := by
  unfold trainLora
  split
  · simp
  · split
    · simp
    · dsimp only
      split_ifs <;> simp [statusRank]

theorem trainLora_chain_progress (body : TrainBody) (fresh : FreshIds)
    (remote : ReplicateCreate) :
    List.Chain' (fun a b : TrainingJob => b.status = .failed ∨ a.progress ≤ b.progress)
      (trainLora body fresh remote).2.jobTrajectory := by
  unfold trainLora
  split
  · simp
  · split
    · simp
    · dsimp only
      split_ifs <;> simp

theorem trainLora_invalid (body : TrainBody) (fresh : FreshIds)
    (remote : ReplicateCreate)
    (h : body.model_name = none ∨ body.gender = none ∨ body.training_images = none ∨
      (body.training_images.getD []).length < 8 ∨ 20 < (body.training_images.getD []).length) :
    trainLora body fresh remote = (400, {}) := by
  have hv : trainBodyInvalid body = true ∨ 20 < (body.training_images.getD []).length := by
    rcases h with h | h | h | h | h
    · left; simp [trainBodyInvalid, jsTruthyStr, h]
    · left; simp [trainBodyInvalid, jsTruthyStr, h]
    · left; simp [trainBodyInvalid, h]
    · left; simp [trainBodyInvalid, h]
    · right; exact h
  unfold trainLora
  rcases hv with hv | hv
  · simp [hv]
  · by_cases hb : trainBodyInvalid body = true
    · simp [hb]
    · simp [hb, hv]


/-- C1, counterexample: the claim says a poll whose provider call itself
errors is never recorded as job failure. On the concrete running job
`dbRun`, a provider call that throws a network failure makes the poll
endpoint write status failed with that error message to the job row
(one job-row write), refuting the claim. -/
theorem c1_counterexample :
    isTerminal dbRun.job.status = false ∧
    (pollTraining dbRun (.err "network failure") "t9").2.job.status = .failed ∧
    (pollTraining dbRun (.err "network failure") "t9").2.job.error_message =
      some "network failure" ∧
    (pollTraining dbRun (.err "network failure") "t9").2.jobWrites =
      dbRun.jobWrites + 1 := by
  refine ⟨rfl, rfl, rfl, rfl⟩

/-- C1, amended: when the provider status call throws, `checkTrainingStatus`
catches the exception and reports status failed carrying the message, and
the poll endpoint then records the job as failed with that message (or the
fallback Training failed when the message is empty), writing the job row
once; the transient poll error is thus recorded as job failure rather than
leaving the job in its non-terminal status. -/
theorem c1_amended (db : Db) (r msg : String) (now : String)
    (ht : isTerminal db.job.status = false)
    (hr : db.job.replicate_training_id = some r) :
    checkTrainingStatus (.err msg) = { status := .failed, error := some msg } ∧
    (pollTraining db (.err msg) now).2.job.status = .failed ∧
    (pollTraining db (.err msg) now).2.job.error_message =
      some (jsStrOr (some msg) "Training failed") ∧
    (pollTraining db (.err msg) now).2.jobWrites = db.jobWrites + 1 := by
  refine ⟨rfl, ?_, ?_, ?_⟩ <;>
    · unfold pollTraining
      simp [ht, hr, checkTrainingStatus, applyUpdate]

/-- Witness for `c1_amended` at the running job `dbRun` and the message
network failure. -/
theorem c1_witness :
    isTerminal dbRun.job.status = false ∧
    dbRun.job.replicate_training_id = some "rt1" ∧
    (checkTrainingStatus (.err "network failure") =
        { status := .failed, error := some "network failure" } ∧
      (pollTraining dbRun (.err "network failure") "t9").2.job.status = .failed ∧
      (pollTraining dbRun (.err "network failure") "t9").2.job.error_message =
        some (jsStrOr (some "network failure") "Training failed") ∧
      (pollTraining dbRun (.err "network failure") "t9").2.jobWrites =
        dbRun.jobWrites + 1) :=
  ⟨rfl, rfl, c1_amended dbRun "rt1" "network failure" "t9" rfl rfl⟩

/-- C2, counterexample: the claim says every poller stops polling once the
30-minute maxWait budget elapses. The client polling loop in
ModelLoRATrain.tsx sleeps 30 seconds before each poll and has no budget:
fed 61 straight still-training responses it performs all 61 polls, the
last of them at elapsed time 61 polls times 30 seconds, which exceeds the
30-minute budget. -/
theorem c2_counterexample :
    clientPollCount (List.replicate 61 processingFetch) = 61 ∧
    maxWaitTime < 61 * pollIntervalMs := by
  exact ⟨clientPollCount_replicate 61, by decide⟩

/-- C2, amended: the server-side helper `waitForTrainingCompletion` does
stop at the 30-minute budget: if the provider never reports a terminal
state it returns, after at most 60 polls, a failure output with the error
Training timeout after 30 minutes (it returns this outcome to its caller;
it does not itself write the job row). The client-side polling loop in
ModelLoRATrain.tsx, however, has no wall-clock budget: it performs as many
polls as it is fed still-training responses, without bound. -/
theorem c2_amended :
    (∀ polls trainingId,
      (∀ k, (polls k).status = .starting ∨ (polls k).status = .processing) →
      waitForTrainingCompletion polls trainingId = timeoutOutput trainingId) ∧
    (∀ n, clientPollCount (List.replicate n processingFetch) = n) :=
  ⟨fun polls tid h => waitForTrainingCompletion_timeout polls tid h,
   clientPollCount_replicate⟩

/-- Witness for `c2_amended`: a provider that always reports processing
times out, and three still-training responses yield three client polls. -/
theorem c2_witness :
    waitForTrainingCompletion constProcessing "rt1" = timeoutOutput "rt1" ∧
    clientPollCount (List.replicate 3 processingFetch) = 3 :=
  ⟨c2_amended.1 constProcessing "rt1" (fun _ => Or.inr rfl), c2_amended.2 3⟩

/-- C3: a poll of a job whose status is already terminal returns the
current terminal payload and leaves the database slice (job row, model
row and both write counters) unchanged, and a second consecutive poll
returns the identical payload. -/
theorem c3_terminal_idempotent (db : Db) (call call2 : ReplicateCall)
    (now now2 : String) (h : isTerminal db.job.status = true) :
    pollTraining db call now = (terminalPayload db.job, db) ∧
    (pollTraining (pollTraining db call now).2 call2 now2).1 =
      (pollTraining db call now).1 := by
  have h1 := pollTraining_terminal db call now h
  refine ⟨h1, ?_⟩
  rw [h1]
  rw [pollTraining_terminal db call2 now2 h]

/-- Witness for `c3_terminal_idempotent` at the completed job `dbDone`. -/
theorem c3_witness :
    isTerminal dbDone.job.status = true ∧
    (pollTraining dbDone procCall "t5" = (terminalPayload dbDone.job, dbDone) ∧
      (pollTraining (pollTraining dbDone procCall "t5").2 succCall "t6").1 =
        (pollTraining dbDone procCall "t5").1) :=
  ⟨rfl, c3_terminal_idempotent dbDone procCall succCall "t5" "t6" rfl⟩

/-- C4: the persisted status only moves forward along
pending, uploading, training, terminal. Every poll leaves the status rank
non-decreasing; a poll of a terminal job changes nothing at all; and the
job-row trajectory written by the train-lora route is rank-monotone. -/
theorem c4_forward_only :
    (∀ db call now,
      statusRank db.job.status ≤ statusRank (pollTraining db call now).2.job.status) ∧
    (∀ db call now, isTerminal db.job.status = true →
      pollTraining db call now = (terminalPayload db.job, db)) ∧
    (∀ body fresh remote,
      List.Chain' (fun a b : TrainingJob => statusRank a.status ≤ statusRank b.status)
        (trainLora body fresh remote).2.jobTrajectory) :=
  ⟨pollTraining_rank, pollTraining_terminal, trainLora_chain_rank⟩

/-- Witness for `c4_forward_only` at concrete inputs. -/
theorem c4_witness :
    (statusRank dbRun.job.status ≤
      statusRank (pollTraining dbRun procCall "t1").2.job.status) ∧
    (isTerminal dbDone.job.status = true ∧
      pollTraining dbDone procCall "t1" = (terminalPayload dbDone.job, dbDone)) ∧
    List.Chain' (fun a b : TrainingJob => statusRank a.status ≤ statusRank b.status)
      (trainLora body0 fresh0 (.ok "rt1")).2.jobTrajectory :=
  ⟨c4_forward_only.1 dbRun procCall "t1",
   ⟨rfl, c4_forward_only.2.1 dbDone procCall "t1" rfl⟩,
   c4_forward_only.2.2 body0 fresh0 (.ok "rt1")⟩

/-- C5: starting a job with 8 valid images and a trigger word, then
polling processing three times and then succeeded with output
weights https://x/y.safetensors, ends with job status completed,
lora_weights_url equal to that URL, and the model record's
has_lora_training flag true (the start request itself returned 200 and
the three processing polls kept the job in status training). -/
theorem c5_scenario :
    (trainLora body0 fresh0 (.ok "rt1")).1 = 200 ∧
    scenarioPoll1.job.status = .training ∧
    scenarioPoll2.job.status = .training ∧
    scenarioPoll3.job.status = .training ∧
    scenarioFinal.job.status = .completed ∧
    scenarioFinal.job.lora_weights_url = some "https://x/y.safetensors" ∧
    scenarioFinal.model.has_lora_training = true := by
  refine ⟨rfl, rfl, rfl, rfl, rfl, rfl, rfl⟩

/-- C6: when the provider reports failed with error out of memory on a
poll of a running (status training) job, the job row is marked failed
with that error message, and the model row is untouched: no field of the
model record changes and no model-row write occurs. -/
theorem c6_failed_leaves_model (db : Db) (r now : String)
    (hs : db.job.status = .training)
    (hr : db.job.replicate_training_id = some r) :
    (pollTraining db oomCall now).2.job.status = .failed ∧
    (pollTraining db oomCall now).2.job.error_message = some "out of memory" ∧
    (pollTraining db oomCall now).2.model = db.model ∧
    (pollTraining db oomCall now).2.modelWrites = db.modelWrites := by
  refine ⟨?_, ?_, ?_, ?_⟩ <;>
    · unfold pollTraining
      simp [hs, hr, isTerminal, oomCall, checkTrainingStatus, applyUpdate,
        jsTruthyStr, jsStrOr]

/-- Witness for `c6_failed_leaves_model` at the running job `dbRun`. -/
theorem c6_witness :
    dbRun.job.status = .training ∧
    dbRun.job.replicate_training_id = some "rt1" ∧
    ((pollTraining dbRun oomCall "t9").2.job.status = .failed ∧
      (pollTraining dbRun oomCall "t9").2.job.error_message = some "out of memory" ∧
      (pollTraining dbRun oomCall "t9").2.model = dbRun.model ∧
      (pollTraining dbRun oomCall "t9").2.modelWrites = dbRun.modelWrites) :=
  ⟨rfl, rfl, c6_failed_leaves_model dbRun "rt1" "t9" rfl rfl⟩

/-- C7, counterexample: the claim says every job reaching completed has
lora_weights_url set. On the running job `dbRun`, a succeeded report
whose output is absent completes the job while leaving lora_weights_url
unset. -/
theorem c7_counterexample :
    (pollTraining dbRun succEmptyCall "t9").2.job.status = .completed ∧
    (pollTraining dbRun succEmptyCall "t9").2.job.lora_weights_url = none ∧
    (pollTraining dbRun succEmptyCall "t9").2.jobWrites = dbRun.jobWrites + 1 := by
  refine ⟨rfl, rfl, rfl⟩

/-- C7, amended: when the provider's succeeded output does yield a weights
URL, the completing poll sets status completed with that URL and applies
the model-row update exactly once (one model write); a poll of an
already-terminal job changes nothing, so the update is never re-applied;
and the job's lora_weights_url is only ever changed by a poll that sets
status completed. A succeeded report with no extractable URL, however,
completes the job with lora_weights_url unset. -/
theorem c7_amended :
    (∀ db r now call u, isTerminal db.job.status = false →
      db.job.replicate_training_id = some r →
      (checkTrainingStatus call).status = .succeeded →
      (extractLoraOutput (checkTrainingStatus call).output).1 = some u →
      (pollTraining db call now).2.job.status = .completed ∧
      (pollTraining db call now).2.job.lora_weights_url = some u ∧
      (pollTraining db call now).2.model.has_lora_training = true ∧
      (pollTraining db call now).2.model.is_active = true ∧
      (pollTraining db call now).2.modelWrites = db.modelWrites + 1) ∧
    (∀ db call now, isTerminal db.job.status = true →
      pollTraining db call now = (terminalPayload db.job, db)) ∧
    (∀ db call now,
      (pollTraining db call now).2.job.lora_weights_url ≠ db.job.lora_weights_url →
      (pollTraining db call now).2.job.status = .completed) := by
  refine ⟨?_, pollTraining_terminal, poll_url_only_completed⟩
  intro db r now call u ht hr hst hu
  exact poll_succeeded_url db r call now u ht hr hst hu

/-- Witness for `c7_amended` at concrete inputs. -/
theorem c7_witness :
    (isTerminal dbRun.job.status = false ∧
      (pollTraining dbRun succCall "t4").2.job.status = .completed ∧
      (pollTraining dbRun succCall "t4").2.job.lora_weights_url =
        some "https://x/y.safetensors" ∧
      (pollTraining dbRun succCall "t4").2.model.has_lora_training = true) ∧
    (isTerminal dbDone.job.status = true ∧
      pollTraining dbDone succCall "t5" = (terminalPayload dbDone.job, dbDone)) ∧
    (pollTraining dbRun succCall "t4").2.job.status = .completed :=
  ⟨⟨rfl,
    ((c7_amended.1 dbRun "rt1" "t4" succCall "https://x/y.safetensors"
        rfl rfl rfl rfl).1),
    ((c7_amended.1 dbRun "rt1" "t4" succCall "https://x/y.safetensors"
        rfl rfl rfl rfl).2.1),
    ((c7_amended.1 dbRun "rt1" "t4" succCall "https://x/y.safetensors"
        rfl rfl rfl rfl).2.2.1)⟩,
   ⟨rfl, c7_amended.2.1 dbDone succCall "t5" rfl⟩,
   c7_amended.2.2 dbRun succCall "t4" (by decide)⟩

/-- C8, counterexample: the claim says no operation writes a progress
value lower than the job's current progress. On the running job `dbRun`
at progress 20, a poll on which the provider reports failure writes
progress 0 to the job row. -/
theorem c8_counterexample :
    dbRun.job.progress = 20 ∧
    (pollTraining dbRun oomCall "t9").2.job.progress = 0 ∧
    (pollTraining dbRun oomCall "t9").2.jobWrites = dbRun.jobWrites + 1 := by
  refine ⟨rfl, rfl, rfl⟩

/-- C8, amended: progress is non-decreasing except on failure. A poll
that does not leave the job in status failed never lowers progress (for
current progress at most 90, which covers every value the code stores in
a non-terminal job); a poll on which the provider reports failed or
canceled resets progress to 0; and along the train-lora route's job-row
trajectory each step either marks the job failed with progress 0 or does
not decrease progress. -/
theorem c8_amended :
    (∀ db call now, db.job.progress ≤ 90 →
      (pollTraining db call now).2.job.status ≠ .failed →
      db.job.progress ≤ (pollTraining db call now).2.job.progress) ∧
    (∀ db r call now, isTerminal db.job.status = false →
      db.job.replicate_training_id = some r →
      ((checkTrainingStatus call).status = .failed ∨
        (checkTrainingStatus call).status = .canceled) →
      (pollTraining db call now).2.job.progress = 0) ∧
    (∀ body fresh remote,
      List.Chain' (fun a b : TrainingJob => b.status = .failed ∨ a.progress ≤ b.progress)
        (trainLora body fresh remote).2.jobTrajectory) := by
  refine ⟨poll_progress, ?_, trainLora_chain_progress⟩
  intro db r call now ht hr hst
  exact poll_failed_resets db r call now ht hr hst

/-- Witness for `c8_amended` at concrete inputs. -/
theorem c8_witness :
    (dbRun.job.progress ≤ 90 ∧
      dbRun.job.progress ≤ (pollTraining dbRun procCall "t1").2.job.progress) ∧
    (isTerminal dbRun.job.status = false ∧
      (pollTraining dbRun oomCall "t9").2.job.progress = 0) ∧
    List.Chain' (fun a b : TrainingJob => b.status = .failed ∨ a.progress ≤ b.progress)
      (trainLora body0 fresh0 (.ok "rt1")).2.jobTrajectory :=
  ⟨⟨by decide, c8_amended.1 dbRun procCall "t1" (by decide) (by decide)⟩,
   ⟨rfl, c8_amended.2.1 dbRun "rt1" oomCall "t9" rfl rfl (Or.inl rfl)⟩,
   c8_amended.2.2 body0 fresh0 (.ok "rt1")⟩

/-- C9: a provider report of canceled on a non-terminal job makes the
poll endpoint write internal status failed with the provider's error or
the fallback message Training canceled, and no poll ever writes internal
status cancelled: the result status is cancelled only when the job was
already cancelled. -/
theorem c9_canceled_maps_to_failed :
    (∀ db r logs output err now, isTerminal db.job.status = false →
      db.job.replicate_training_id = some r →
      (pollTraining db (.ok .canceled logs output err) now).2.job.status = .failed ∧
      (pollTraining db (.ok .canceled logs output err) now).2.job.error_message =
        some (jsStrOr err "Training canceled")) ∧
    (∀ db call now, (pollTraining db call now).2.job.status = .cancelled →
      db.job.status = .cancelled) := by
  refine ⟨?_, poll_no_cancel⟩
  intro db r logs output err now ht hr
  exact poll_canceled_failed db r logs output err now ht hr

/-- Witness for `c9_canceled_maps_to_failed` at concrete inputs. -/
theorem c9_witness :
    (isTerminal dbRun.job.status = false ∧
      (pollTraining dbRun (.ok .canceled none none none) "t9").2.job.status = .failed ∧
      (pollTraining dbRun (.ok .canceled none none none) "t9").2.job.error_message =
        some (jsStrOr none "Training canceled")) ∧
    ((pollTraining dbCancelled procCall "t9").2.job.status = .cancelled ∧
      dbCancelled.job.status = .cancelled) :=
  ⟨⟨rfl,
    (c9_canceled_maps_to_failed.1 dbRun "rt1" none none none "t9" rfl rfl).1,
    (c9_canceled_maps_to_failed.1 dbRun "rt1" none none none "t9" rfl rfl).2⟩,
   ⟨rfl, c9_canceled_maps_to_failed.2 dbCancelled procCall "t9" rfl⟩⟩

/-- C10: the train-lora route rejects with HTTP 400 and performs no
database write and no remote call whenever model_name or gender is
missing, training_images is missing or shorter than 8, or longer than 20
(the empty result has no model row, an empty job trajectory, zero write
counters and remoteCalled false); independently, `startLoRATraining`
returns success false for any image count outside 8..20. -/
theorem c10_validation :
    (∀ body fresh remote,
      (body.model_name = none ∨ body.gender = none ∨ body.training_images = none ∨
        (body.training_images.getD []).length < 8 ∨
        20 < (body.training_images.getD []).length) →
      trainLora body fresh remote =
        (400, { model := none, jobTrajectory := [], modelWrites := 0,
                jobWrites := 0, remoteCalled := false })) ∧
    (∀ input remote duration,
      (input.training_images.length < 8 ∨ 20 < input.training_images.length) →
      (startLoRATraining input remote duration).success = false) := by
  refine ⟨trainLora_invalid, ?_⟩
  intro input remote duration h
  unfold startLoRATraining
  rw [if_pos h]

/-- Witness for `c10_validation`: a body with no gender is rejected, and
a 1-image training input fails validation. -/
theorem c10_witness :
    trainLora { body0 with gender := none } fresh0 (.ok "rt1") =
      (400, { model := none, jobTrajectory := [], modelWrites := 0,
              jobWrites := 0, remoteCalled := false }) ∧
    (startLoRATraining { training_images := ["a"], trigger_word := "X" }
        (.ok "rt1") 1).success = false :=
  ⟨c10_validation.1 { body0 with gender := none } fresh0 (.ok "rt1")
      (Or.inr (Or.inl rfl)),
   c10_validation.2 { training_images := ["a"], trigger_word := "X" }
      (.ok "rt1") 1 (Or.inl (by decide))⟩

end FashionAgent
